import Mathlib

/-!
Verification of the plain-forward relay engine of the proxy-chain
repository (`src/forward.ts`).  The engine is embedded shallowly:

* `buildOutbound` models the synchronous prefix of `forward` — building
  the outbound request options (origin selection, custom-header hook,
  header sanitization, proxy-authorization injection).
* `forward` models one whole relay run: the outbound request together
  with the writes performed on the client response object and the
  settlement calls (`resolve` / `reject`) made on the returned promise,
  for each possible terminal outbound event (a response, or a
  connection error).

The two pure helpers `validHeadersOnly` and `getBasicAuthorizationHeader`
live in `src/utils`, which is not part of the sources here; they are
modelled from the spec (§4.1, §4.2) and marked as such.
-/

namespace ProxyChain

/-! ## Header sanitizer (spec §4.1) -/

/-- A character allowed in a header name: an HTTP token character
(digits, letters, and the usual token specials, given by code point). -/
def isTokenChar (c : Char) : Bool :=
  decide ((48 ≤ c.toNat ∧ c.toNat ≤ 57) ∨ (65 ≤ c.toNat ∧ c.toNat ≤ 90) ∨
    (97 ≤ c.toNat ∧ c.toNat ≤ 122) ∨
    c.toNat ∈ ([33, 35, 36, 37, 38, 39, 42, 43, 45, 46, 94, 95, 96, 124, 126] : List Nat))

/-- A structurally valid header name: non-empty and made of token characters. -/
def validHeaderName (s : String) : Bool :=
  decide (s ≠ "") && s.toList.all isTokenChar

/-- A structurally valid header value: no control characters (horizontal
tab, printable ASCII and high bytes are allowed). -/
def validHeaderValue (s : String) : Bool :=
  s.toList.all fun c =>
    decide (c.toNat = 9 ∨ (32 ≤ c.toNat ∧ c.toNat ≤ 126) ∨ (128 ≤ c.toNat ∧ c.toNat ≤ 255))

/-- The fixed deny-list of hop-by-hop header names (spec §4.1: a fixed
deny-list of hop-by-hop names defined by policy; this is the standard
hop-by-hop set, lower-cased). -/
def hopByHopHeaders : List String :=
  ["connection", "keep-alive", "proxy-authenticate", "proxy-authorization",
   "te", "trailer", "transfer-encoding", "upgrade"]

/-- ASCII lower-casing of one character. -/
def lowerChar (c : Char) : Char :=
  if 65 ≤ c.toNat ∧ c.toNat ≤ 90 then Char.ofNat (c.toNat + 32) else c

/-- ASCII lower-casing of a string (header names are ASCII tokens). -/
def lowerString (s : String) : String := String.mk (s.toList.map lowerChar)

/-- Case-insensitive membership in the hop-by-hop deny-list. -/
def isHopByHop (name : String) : Bool :=
  hopByHopHeaders.contains (lowerString name)

/-- Group a raw alternating name/value sequence into pairs (a trailing
name without a value is dropped, as its missing value is invalid). -/
def toPairs : List String → List (String × String)
  | name :: value :: rest => (name, value) :: toPairs rest
  | _ => []

/-- Flatten a pair list back into the alternating name/value form. -/
def flattenPairs : List (String × String) → List String
  | [] => []
  | (name, value) :: rest => name :: value :: flattenPairs rest

/-- A pair survives sanitization: valid name, valid value, not hop-by-hop. -/
def validPair (q : String × String) : Bool :=
  validHeaderName q.1 && validHeaderValue q.2 && !(isHopByHop q.1)

/-- Modelled from the spec: the Header Sanitizer (`validHeadersOnly` of
`src/utils/valid_headers_only`, not included under src/).  Spec §4.1:
filters a raw alternating name/value sequence, silently dropping entries
that are structurally invalid (empty names, control characters) or on
the fixed hop-by-hop deny-list. -/
def validHeadersOnly (hs : List String) : List String :=
  flattenPairs ((toPairs hs).filter validPair)

/-! ## Basic-auth encoder (spec §4.2) -/

/-- The base64 alphabet. -/
def base64Alphabet : List Char :=
  "ABCDEFGHIJKLMNOPQRSTUVWXYZabcdefghijklmnopqrstuvwxyz0123456789+/".toList

/-- The base64 digit for a 6-bit value. -/
def base64Digit (n : Nat) : Char := base64Alphabet.getD n 'A'

/-- Standard base64 encoding of a byte list (with `=` padding). -/
def base64Encode : List Nat → String
  | [] => ""
  | [a] =>
      String.mk [base64Digit (a / 4), base64Digit (a % 4 * 16), '=', '=']
  | [a, b] =>
      String.mk [base64Digit (a / 4), base64Digit (a % 4 * 16 + b / 16),
        base64Digit (b % 16 * 4), '=']
  | a :: b :: c :: rest =>
      String.mk [base64Digit (a / 4), base64Digit (a % 4 * 16 + b / 16),
        base64Digit (b % 16 * 4 + c / 64), base64Digit (c % 64)] ++ base64Encode rest

/-- The latin-1 bytes of a string whose characters all fit in one byte. -/
def latin1Bytes (s : String) : List Nat := s.toList.map Char.toNat

/-- The upstream proxy URL as the engine consumes it: its origin string
and its (possibly empty) embedded credentials. -/
structure ProxyURL where
  origin : String
  username : String
  password : String
deriving DecidableEq, Repr

/-- Modelled from the spec: the Basic-Auth Encoder
(`getBasicAuthorizationHeader` of `src/utils/get_basic`, not included
under src/).  Spec §4.2: produces `Basic <base64(username:password)>`,
failing with an encoding error when the credential string cannot be
represented in the chosen (one-byte) encoding. -/
def getBasicAuthorizationHeader (p : ProxyURL) : Except String String :=
  let cred := p.username ++ ":" ++ p.password
  if cred.toList.all (fun c => decide (c.toNat ≤ 255)) then
    Except.ok ("Basic " ++ base64Encode (latin1Bytes cred))
  else
    Except.error "Invalid credentials encoding"

/-! ## Data model of one relay -/

/-- The inbound request as `forward` reads it: raw URL (absolute-URI
form, as clients send to a proxy), method, and raw header sequence. -/
structure Request where
  url : String
  method : String
  rawHeaders : List String
deriving DecidableEq, Repr

/-- The per-request handler configuration consumed by `forward`.  The
custom-header hook is a JavaScript function and may therefore either
return a replacement sequence or throw; `Except` captures both. -/
structure HandlerOpts where
  upstreamProxyUrlParsed : Option ProxyURL
  customHttpHeader : Option (List String → Except String (List String))

/-- The outbound request `forward` hands to `http.request` /
`https.request`: target origin, method, header sequence, the explicit
`path` option (set only in proxy mode), and the TLS selection. -/
structure OutboundRequest where
  origin : String
  method : String
  headers : List String
  path : Option String
  isHttps : Bool
deriving DecidableEq, Repr

/-- Models Node.js deriving the request path from the URL string when no
explicit `path` option is given: everything from the first slash after
the `://` authority separator, defaulting to the root path. -/
def dropAuthority : List Char → List Char
  | [] => []
  | ':' :: '/' :: '/' :: rest => rest
  | _ :: rest => dropAuthority rest

/-- The suffix of a character list starting at its first slash. -/
def fromSlash : List Char → List Char
  | [] => []
  | '/' :: rest => '/' :: rest
  | _ :: rest => fromSlash rest

/-- The path component of a URL string (query included, `/` default). -/
def pathOfUrl (u : String) : String :=
  match fromSlash (dropAuthority u.toList) with
  | [] => "/"
  | cs => String.mk cs

/-- The request path that actually goes on the wire: the explicit `path`
option when set, otherwise the path Node derives from the origin URL. -/
def OutboundRequest.effectivePath (ob : OutboundRequest) : String :=
  match ob.path with
  | some p => p
  | none => pathOfUrl ob.origin

/-- How the synchronous prefix of `forward` can fail: the custom-header
hook threw (the throw escapes the async promise executor, settling
nothing), or encoding the proxy credentials threw (caught and turned
into a rejection). -/
inductive BuildError where
  | hookThrow (message : String)
  | encoding (message : String)
deriving DecidableEq, Repr

/-- String prefix test (models JavaScript `String.prototype.startsWith`). -/
def strStartsWith (s p : String) : Bool :=
  decide (s.toList.take p.length = p.toList)

/-- Applying the optional custom-header hook (absence is pass-through). -/
def applyHook (opts : HandlerOpts) (hs : List String) : Except String (List String) :=
  match opts.customHttpHeader with
  | some f => f hs
  | none => Except.ok hs

/-- The synchronous prefix of `forward` (src/forward.ts lines 54-90):
pick the origin (upstream origin when a proxy is configured, the raw
request URL otherwise), apply the custom-header hook, sanitize, and in
proxy mode set the absolute-URI path and append the proxy-authorization
header when the upstream URL carries non-empty credentials. -/
def buildOutbound (req : Request) (opts : HandlerOpts) :
    Except BuildError OutboundRequest :=
  match applyHook opts req.rawHeaders with
  | Except.error e => Except.error (BuildError.hookThrow e)
  | Except.ok hooked =>
    let base := validHeadersOnly hooked
    match opts.upstreamProxyUrlParsed with
    | none =>
        Except.ok { origin := req.url, method := req.method, headers := base,
                    path := none, isHttps := strStartsWith req.url "https:" }
    | some p =>
        if p.username ≠ "" ∨ p.password ≠ "" then
          match getBasicAuthorizationHeader p with
          | Except.error e => Except.error (BuildError.encoding e)
          | Except.ok v =>
              Except.ok { origin := p.origin, method := req.method,
                          headers := base ++ ["proxy-authorization", v],
                          path := some req.url,
                          isHttps := strStartsWith p.origin "https:" }
        else
          Except.ok { origin := p.origin, method := req.method, headers := base,
                      path := some req.url,
                      isHttps := strStartsWith p.origin "https:" }

/-! ## The relay run -/

/-- A settlement call on the promise returned by `forward`. -/
inductive Settlement where
  | resolved
  | rejected (message : String)
deriving DecidableEq, Repr

/-- A write performed on the client response object:
`writeHead` (status line and headers), the streaming of the outbound
response body (complete or interrupted), or the self-made error
response of the connection-error listener (status, content-type header
and plain-text body). -/
inductive WriteEvent where
  | writeHead (status : Nat) (message : String) (headers : List String)
  | bodyRelay (complete : Bool)
  | errorResponse (status : Nat) (contentType : String) (body : String)
deriving DecidableEq, Repr

/-- Whether a write starts a response to the client (status line and
headers), as opposed to relaying body bytes of an already started one. -/
def WriteEvent.isResponseStart : WriteEvent → Bool
  | .writeHead _ _ _ => true
  | .bodyRelay _ => false
  | .errorResponse _ _ _ => true

/-- The terminal outbound event of one relay: either the outbound
response arrived (status code, status message, raw headers, whether the
body pipeline ran to completion, and an optional late socket error
firing after the head was written), or the outbound connection erred
before any response (carrying its Node error code). -/
inductive OutboundEvent where
  | response (statusCode : Nat) (statusMessage : String) (rawHeaders : List String)
      (pipelineOk : Bool) (lateError : Option String)
  | connError (code : String)
deriving Repr

/-- The error-code-to-status table of the connection-error listener
(src/forward.ts lines 134-140), closed over whether a proxy is in use. -/
def statuses (proxyPresent : Bool) (code : String) : Option Nat :=
  if code = "ENOTFOUND" then some (if proxyPresent then 502 else 404)
  else if code = "ECONNREFUSED" then some 502
  else if code = "ECONNRESET" then some 502
  else if code = "EPIPE" then some 502
  else if code = "ETIMEDOUT" then some 504
  else none

/-- The client status chosen for a connection error: the table entry,
`502` by default (src/forward.ts line 142). -/
def errorStatus (proxyPresent : Bool) (code : String) : Nat :=
  (statuses proxyPresent code).getD 502

/-- Models the Node.js `http.STATUS_CODES` reason-phrase table,
restricted to the statuses reachable from `errorStatus`. -/
def STATUS_CODES (n : Nat) : String :=
  if n = 404 then "Not Found"
  else if n = 502 then "Bad Gateway"
  else if n = 504 then "Gateway Timeout"
  else ""

/-- The `client.on error` listener (src/forward.ts lines 129-147): when
headers were already sent it returns at once (no write, no settlement);
otherwise it writes the mapped status with a plain-text body equal to
the standard reason phrase, and resolves. -/
def clientErrorListener (headersSent : Bool) (proxyPresent : Bool) (code : String) :
    List WriteEvent × List Settlement :=
  if headersSent then ([], [])
  else
    let status := errorStatus proxyPresent code
    ([WriteEvent.errorResponse status "text/plain; charset=utf-8" (STATUS_CODES status)],
     [Settlement.resolved])

/-- The observable result of one relay run: the outbound request that
was issued (none when the run failed before connecting), the writes on
the client response in order, and the settlement calls in order. -/
structure ForwardRun where
  outbound : Option OutboundRequest
  writes : List WriteEvent
  settlements : List Settlement
deriving DecidableEq, Repr

/-- One whole run of `forward` (src/forward.ts lines 48-148) under a
given terminal outbound event.  A throwing custom-header hook escapes
the async promise executor, so that path performs no write and settles
nothing; a credential-encoding error is caught and rejected.  On a
response: status 407 is rejected before any write; otherwise the status
is clamped into [100,999] (out-of-range becomes 502), the head is
written with the original status message and the sanitized raw headers,
the body is piped (the pipeline's failure is caught and resolved), and
a late socket error reaches the error listener with headers already
sent.  On a pre-response connection error the error listener writes the
mapped status and reason-phrase body and resolves.  After a 407
rejection no head has been written, so a subsequent socket error still
reaches the error listener with `headersSent` false: the listener then
writes its mapped status head and reason-phrase body to the client and
calls resolve (a no-op on the already-rejected promise, but a recorded
settlement call). -/
def forward (req : Request) (opts : HandlerOpts) (ev : OutboundEvent) : ForwardRun :=
  match buildOutbound req opts with
  | Except.error (BuildError.hookThrow _) =>
      { outbound := none, writes := [], settlements := [] }
  | Except.error (BuildError.encoding e) =>
      { outbound := none, writes := [], settlements := [Settlement.rejected e] }
  | Except.ok ob =>
    let proxyPresent := opts.upstreamProxyUrlParsed.isSome
    match ev with
    | OutboundEvent.response sc sm rh pipeOk lateErr =>
        if sc = 407 then
          let late := match lateErr with
            | some c => clientErrorListener false proxyPresent c
            | none => ([], [])
          { outbound := some ob, writes := late.1,
            settlements := Settlement.rejected "407 Proxy Authentication Required"
              :: late.2 }
        else
          let clamped := if sc < 100 ∨ 999 < sc then 502 else sc
          let late := match lateErr with
            | some c => clientErrorListener true proxyPresent c
            | none => ([], [])
          { outbound := some ob,
            writes := WriteEvent.writeHead clamped sm (validHeadersOnly rh)
              :: WriteEvent.bodyRelay pipeOk :: late.1,
            settlements := Settlement.resolved :: late.2 }
    | OutboundEvent.connError code =>
        let r := clientErrorListener false proxyPresent code
        { outbound := some ob, writes := r.1, settlements := r.2 }

/-! ## Header counting helpers -/

/-- The number of pairs in an alternating header sequence whose name is
the given lower-case name, compared case-insensitively. -/
def countHeader (name : String) (hs : List String) : Nat :=
  ((toPairs hs).filter (fun q => lowerString q.1 = name)).length

/-- The values of all pairs with the given lower-case name. -/
def headerValuesOf (name : String) (hs : List String) : List String :=
  ((toPairs hs).filter (fun q => lowerString q.1 = name)).map (fun q => q.2)

/-! ## Concrete example inputs -/

/-- A typical inbound proxy request in absolute-URI form. -/
def reqA : Request :=
  { url := "http://example.test/page", method := "GET",
    rawHeaders := ["Host", "example.test"] }

/-- Direct mode: no upstream proxy, no custom-header hook. -/
def optsDirect : HandlerOpts :=
  { upstreamProxyUrlParsed := none, customHttpHeader := none }

/-- An upstream proxy carrying credentials `user:pass`. -/
def pUserPass : ProxyURL :=
  { origin := "http://upstream.test:8080", username := "user", password := "pass" }

/-- Proxy mode with credentials. -/
def optsProxy : HandlerOpts :=
  { upstreamProxyUrlParsed := some pUserPass, customHttpHeader := none }

/-- An upstream proxy with empty credentials. -/
def pNoCreds : ProxyURL :=
  { origin := "http://upstream.test:8080", username := "", password := "" }

/-- Proxy mode without credentials. -/
def optsProxyNoCreds : HandlerOpts :=
  { upstreamProxyUrlParsed := some pNoCreds, customHttpHeader := none }

/-- An upstream proxy whose username cannot be represented in one-byte
encoding (the character has code point 960). -/
def pBadCreds : ProxyURL :=
  { origin := "http://upstream.test:8080", username := "π", password := "pass" }

/-- Proxy mode with credentials the encoder rejects. -/
def optsBadCreds : HandlerOpts :=
  { upstreamProxyUrlParsed := some pBadCreds, customHttpHeader := none }

/-- A custom-header hook that throws on every input. -/
def optsHookThrow : HandlerOpts :=
  { upstreamProxyUrlParsed := none,
    customHttpHeader := some (fun _ => Except.error "header hook threw") }

/-- The outbound request `buildOutbound` produces for `reqA` in direct mode. -/
def obDirect : OutboundRequest :=
  { origin := "http://example.test/page", method := "GET",
    headers := ["Host", "example.test"], path := none, isHttps := false }

/-- The outbound request `buildOutbound` produces for `reqA` through `pUserPass`. -/
def obProxy : OutboundRequest :=
  { origin := "http://upstream.test:8080", method := "GET",
    headers := ["Host", "example.test", "proxy-authorization", "Basic dXNlcjpwYXNz"],
    path := some "http://example.test/page", isHttps := false }

/-! ## Helper lemmas on the sanitizer -/

theorem toPairs_flattenPairs_append (ps : List (String × String)) (tl : List String) :
    toPairs (flattenPairs ps ++ tl) = ps ++ toPairs tl := by
  induction ps with
  | nil => simp [flattenPairs]
  | cons q rest ih =>
      cases q with
      | mk n v => simp [flattenPairs, toPairs, ih]

theorem toPairs_flattenPairs (ps : List (String × String)) :
    toPairs (flattenPairs ps) = ps := by
  have h := toPairs_flattenPairs_append ps []
  simpa [toPairs] using h

/-- The sanitizer is idempotent: its outputs are exactly its fixpoints. -/
theorem validHeadersOnly_idem (hs : List String) :
    validHeadersOnly (validHeadersOnly hs) = validHeadersOnly hs := by
  unfold validHeadersOnly
  rw [toPairs_flattenPairs, List.filter_filter]
  simp

/-- A surviving pair is not hop-by-hop. -/
theorem validPair_not_hopByHop {q : String × String} (h : validPair q = true) :
    isHopByHop q.1 = false := by
  unfold validPair at h
  simp only [Bool.and_eq_true, Bool.not_eq_true'] at h
  exact h.2

/-- No pair named `proxy-authorization` (case-insensitively) survives
the sanitizer. -/
theorem filter_pa_validPair (ps : List (String × String)) :
    (ps.filter validPair).filter
      (fun q => decide (lowerString q.1 = "proxy-authorization")) = [] := by
  rw [List.filter_eq_nil_iff]
  intro q hq
  have hv : validPair q = true := List.of_mem_filter hq
  have hh := validPair_not_hopByHop hv
  simp only [decide_eq_true_eq]
  intro hcontra
  rw [isHopByHop, hcontra] at hh
  exact absurd hh (by decide)

/-- The sanitizer's output never carries a `proxy-authorization` pair. -/
theorem countHeader_pa_validHeadersOnly (hs : List String) :
    countHeader "proxy-authorization" (validHeadersOnly hs) = 0 := by
  unfold countHeader validHeadersOnly
  rw [toPairs_flattenPairs, filter_pa_validPair]
  rfl

/-- Appending the engine's `proxy-authorization` pair to a sanitized
base yields exactly one such header, carrying exactly that value. -/
theorem countHeader_pa_append (hs : List String) (v : String) :
    countHeader "proxy-authorization" (validHeadersOnly hs ++ ["proxy-authorization", v]) = 1 ∧
    headerValuesOf "proxy-authorization" (validHeadersOnly hs ++ ["proxy-authorization", v])
      = [v] := by
  unfold countHeader headerValuesOf validHeadersOnly
  rw [toPairs_flattenPairs_append, List.filter_append, filter_pa_validPair]
  have hpa : (decide (lowerString "proxy-authorization" = "proxy-authorization")) = true := by
    decide
  simp [toPairs, List.filter_cons, hpa]

/-- Whether the configured upstream proxy carries non-empty credentials. -/
def upstreamCredsNonEmpty (opts : HandlerOpts) : Bool :=
  match opts.upstreamProxyUrlParsed with
  | some p => decide (p.username ≠ "" ∨ p.password ≠ "")
  | none => false

/-- The basic-auth header value for an upstream URL's credentials. -/
def basicAuthValueOf (p : ProxyURL) : String :=
  "Basic " ++ base64Encode (latin1Bytes (p.username ++ ":" ++ p.password))

/-! ## Characterization of `buildOutbound`, case by case -/

theorem buildOutbound_hookThrow (req : Request) (opts : HandlerOpts) (e : String)
    (hap : applyHook opts req.rawHeaders = Except.error e) :
    buildOutbound req opts = Except.error (BuildError.hookThrow e) := by
  unfold buildOutbound
  rw [hap]

theorem buildOutbound_direct (req : Request) (opts : HandlerOpts) (hooked : List String)
    (hap : applyHook opts req.rawHeaders = Except.ok hooked)
    (hp : opts.upstreamProxyUrlParsed = none) :
    buildOutbound req opts
      = Except.ok { origin := req.url, method := req.method,
                    headers := validHeadersOnly hooked, path := none,
                    isHttps := strStartsWith req.url "https:" } := by
  unfold buildOutbound
  rw [hap, hp]

theorem buildOutbound_noCreds (req : Request) (opts : HandlerOpts) (hooked : List String)
    (p : ProxyURL) (hap : applyHook opts req.rawHeaders = Except.ok hooked)
    (hp : opts.upstreamProxyUrlParsed = some p)
    (hcred : ¬(p.username ≠ "" ∨ p.password ≠ "")) :
    buildOutbound req opts
      = Except.ok { origin := p.origin, method := req.method,
                    headers := validHeadersOnly hooked, path := some req.url,
                    isHttps := strStartsWith p.origin "https:" } := by
  unfold buildOutbound
  rw [hap, hp]
  dsimp only
  rw [if_neg hcred]

theorem buildOutbound_creds (req : Request) (opts : HandlerOpts) (hooked : List String)
    (p : ProxyURL) (v : String) (hap : applyHook opts req.rawHeaders = Except.ok hooked)
    (hp : opts.upstreamProxyUrlParsed = some p)
    (hcred : p.username ≠ "" ∨ p.password ≠ "")
    (henc : getBasicAuthorizationHeader p = Except.ok v) :
    buildOutbound req opts
      = Except.ok { origin := p.origin, method := req.method,
                    headers := validHeadersOnly hooked ++ ["proxy-authorization", v],
                    path := some req.url,
                    isHttps := strStartsWith p.origin "https:" } := by
  unfold buildOutbound
  rw [hap, hp]
  dsimp only
  rw [if_pos hcred, henc]

theorem buildOutbound_encError (req : Request) (opts : HandlerOpts) (hooked : List String)
    (p : ProxyURL) (e : String) (hap : applyHook opts req.rawHeaders = Except.ok hooked)
    (hp : opts.upstreamProxyUrlParsed = some p)
    (hcred : p.username ≠ "" ∨ p.password ≠ "")
    (henc : getBasicAuthorizationHeader p = Except.error e) :
    buildOutbound req opts = Except.error (BuildError.encoding e) := by
  unfold buildOutbound
  rw [hap, hp]
  dsimp only
  rw [if_pos hcred, henc]

/-- The encoder only succeeds with the basic-auth value of the credentials. -/
theorem getBasicAuthorizationHeader_ok {p : ProxyURL} {v : String}
    (henc : getBasicAuthorizationHeader p = Except.ok v) :
    v = basicAuthValueOf p := by
  unfold getBasicAuthorizationHeader at henc
  dsimp only at henc
  split at henc
  · simp only [Except.ok.injEq] at henc
    exact henc.symm
  · cases henc

/-- The sanitizer's output carries no `proxy-authorization` values. -/
theorem headerValuesOf_pa_validHeadersOnly (hs : List String) :
    headerValuesOf "proxy-authorization" (validHeadersOnly hs) = [] := by
  unfold headerValuesOf validHeadersOnly
  rw [toPairs_flattenPairs, filter_pa_validPair]
  rfl

/-! ## Run-shape lemmas -/

/-- Shape of a run whose outbound response arrived with a status other
than 407. -/
theorem forward_response_eq (req : Request) (opts : HandlerOpts) (ob : OutboundRequest)
    (sc : Nat) (sm : String) (rh : List String) (pipeOk : Bool) (lateErr : Option String)
    (h : buildOutbound req opts = Except.ok ob) (h407 : sc ≠ 407) :
    forward req opts (OutboundEvent.response sc sm rh pipeOk lateErr)
      = { outbound := some ob,
          writes := [WriteEvent.writeHead (if sc < 100 ∨ 999 < sc then 502 else sc) sm
            (validHeadersOnly rh), WriteEvent.bodyRelay pipeOk],
          settlements := [Settlement.resolved] } := by
  unfold forward
  rw [h]
  cases lateErr <;> simp [h407, clientErrorListener]

/-- Shape of a run whose outbound connection erred before any response. -/
theorem forward_connError_eq (req : Request) (opts : HandlerOpts) (ob : OutboundRequest)
    (code : String) (h : buildOutbound req opts = Except.ok ob) :
    forward req opts (OutboundEvent.connError code)
      = { outbound := some ob,
          writes := [WriteEvent.errorResponse
            (errorStatus opts.upstreamProxyUrlParsed.isSome code)
            "text/plain; charset=utf-8"
            (STATUS_CODES (errorStatus opts.upstreamProxyUrlParsed.isSome code))],
          settlements := [Settlement.resolved] } := by
  unfold forward
  rw [h]
  simp [clientErrorListener]

/-! ## The claims -/

/-- C1: the outbound path is the absolute-URI form (the raw request
URL) exactly when an upstream proxy is configured; without one the
outbound target is the request's own URL, so the wire path is the
original request path, not absolute-URI form. -/
theorem forward_path_correct (req : Request) (opts : HandlerOpts) (ob : OutboundRequest)
    (h : buildOutbound req opts = Except.ok ob) :
    (opts.upstreamProxyUrlParsed.isSome = true →
        ob.path = some req.url ∧ ob.effectivePath = req.url) ∧
    (opts.upstreamProxyUrlParsed = none →
        ob.path = none ∧ ob.origin = req.url ∧ ob.effectivePath = pathOfUrl req.url) := by
  cases hap : applyHook opts req.rawHeaders with
  | error e => rw [buildOutbound_hookThrow req opts e hap] at h; cases h
  | ok hooked =>
    cases hp : opts.upstreamProxyUrlParsed with
    | none =>
        rw [buildOutbound_direct req opts hooked hap hp] at h
        simp only [Except.ok.injEq] at h
        subst h
        simp [hp, OutboundRequest.effectivePath]
    | some p =>
        by_cases hcred : p.username ≠ "" ∨ p.password ≠ ""
        · cases henc : getBasicAuthorizationHeader p with
          | error e => rw [buildOutbound_encError req opts hooked p e hap hp hcred henc] at h; cases h
          | ok v =>
              rw [buildOutbound_creds req opts hooked p v hap hp hcred henc] at h
              simp only [Except.ok.injEq] at h
              subst h
              simp [hp, OutboundRequest.effectivePath]
        · rw [buildOutbound_noCreds req opts hooked p hap hp hcred] at h
          simp only [Except.ok.injEq] at h
          subst h
          simp [hp, OutboundRequest.effectivePath]

/-- C1 witness: a request routed through an upstream proxy. -/
theorem forward_path_correct_witness :
    buildOutbound reqA optsProxy = Except.ok obProxy ∧
    ((optsProxy.upstreamProxyUrlParsed.isSome = true →
        obProxy.path = some reqA.url ∧ obProxy.effectivePath = reqA.url) ∧
     (optsProxy.upstreamProxyUrlParsed = none →
        obProxy.path = none ∧ obProxy.origin = reqA.url ∧
        obProxy.effectivePath = pathOfUrl reqA.url)) :=
  ⟨by rfl, forward_path_correct reqA optsProxy obProxy (by rfl)⟩

/-- C2: the outbound header sequence carries exactly one
proxy-authorization pair, with value `Basic base64(username:password)`,
exactly when the configured upstream URL has non-empty credentials;
otherwise it carries none. -/
theorem forward_proxy_auth (req : Request) (opts : HandlerOpts) (ob : OutboundRequest)
    (h : buildOutbound req opts = Except.ok ob) :
    countHeader "proxy-authorization" ob.headers
      = (if upstreamCredsNonEmpty opts then 1 else 0) ∧
    headerValuesOf "proxy-authorization" ob.headers
      = (if upstreamCredsNonEmpty opts
         then (opts.upstreamProxyUrlParsed.map basicAuthValueOf).toList
         else []) := by
  cases hap : applyHook opts req.rawHeaders with
  | error e => rw [buildOutbound_hookThrow req opts e hap] at h; cases h
  | ok hooked =>
    cases hp : opts.upstreamProxyUrlParsed with
    | none =>
        rw [buildOutbound_direct req opts hooked hap hp] at h
        simp only [Except.ok.injEq] at h
        subst h
        simp [upstreamCredsNonEmpty, hp, countHeader_pa_validHeadersOnly,
          headerValuesOf_pa_validHeadersOnly]
    | some p =>
        by_cases hcred : p.username ≠ "" ∨ p.password ≠ ""
        · cases henc : getBasicAuthorizationHeader p with
          | error e => rw [buildOutbound_encError req opts hooked p e hap hp hcred henc] at h; cases h
          | ok v =>
              rw [buildOutbound_creds req opts hooked p v hap hp hcred henc] at h
              simp only [Except.ok.injEq] at h
              subst h
              have hv := getBasicAuthorizationHeader_ok henc
              subst hv
              have hc := countHeader_pa_append hooked (basicAuthValueOf p)
              simp [upstreamCredsNonEmpty, hp, hcred, hc.1, hc.2]
        · rw [buildOutbound_noCreds req opts hooked p hap hp hcred] at h
          simp only [Except.ok.injEq] at h
          subst h
          simp [upstreamCredsNonEmpty, hp, hcred, countHeader_pa_validHeadersOnly,
            headerValuesOf_pa_validHeadersOnly]

/-- C2 witness: upstream `user:pass` yields exactly one
proxy-authorization header with the expected basic-auth value. -/
theorem forward_proxy_auth_witness :
    buildOutbound reqA optsProxy = Except.ok obProxy ∧
    (countHeader "proxy-authorization" obProxy.headers
        = (if upstreamCredsNonEmpty optsProxy then 1 else 0) ∧
     headerValuesOf "proxy-authorization" obProxy.headers
        = (if upstreamCredsNonEmpty optsProxy
           then (optsProxy.upstreamProxyUrlParsed.map basicAuthValueOf).toList
           else [])) :=
  ⟨by rfl, forward_proxy_auth reqA optsProxy obProxy (by rfl)⟩

/-- C3: a non-407 outbound status in [100,999] reaches the client
unchanged; a status outside [100,999] is replaced by 502; in both cases
the relay resolves rather than failing. -/
theorem forward_status_passthrough (req : Request) (opts : HandlerOpts) (ob : OutboundRequest)
    (sc : Nat) (sm : String) (rh : List String) (pipeOk : Bool) (lateErr : Option String)
    (h : buildOutbound req opts = Except.ok ob) (h407 : sc ≠ 407) :
    (forward req opts (OutboundEvent.response sc sm rh pipeOk lateErr)).settlements
      = [Settlement.resolved] ∧
    (100 ≤ sc ∧ sc ≤ 999 →
      (forward req opts (OutboundEvent.response sc sm rh pipeOk lateErr)).writes.head?
        = some (WriteEvent.writeHead sc sm (validHeadersOnly rh))) ∧
    (sc < 100 ∨ 999 < sc →
      (forward req opts (OutboundEvent.response sc sm rh pipeOk lateErr)).writes.head?
        = some (WriteEvent.writeHead 502 sm (validHeadersOnly rh))) := by
  rw [forward_response_eq req opts ob sc sm rh pipeOk lateErr h h407]
  refine ⟨rfl, ?_, ?_⟩
  · intro hin
    have : ¬(sc < 100 ∨ 999 < sc) := by omega
    simp [this]
  · intro hout
    simp [hout]

/-- C3 witness: status 204 passes through; the general theorem is
applied at a concrete in-range input. -/
theorem forward_status_passthrough_witness :
    buildOutbound reqA optsDirect = Except.ok obDirect ∧ (204 : Nat) ≠ 407 ∧
    ((forward reqA optsDirect (OutboundEvent.response 204 "No Content" ["Server", "nginx"]
        true none)).settlements = [Settlement.resolved] ∧
     (100 ≤ 204 ∧ 204 ≤ 999 →
      (forward reqA optsDirect (OutboundEvent.response 204 "No Content" ["Server", "nginx"]
        true none)).writes.head?
        = some (WriteEvent.writeHead 204 "No Content" (validHeadersOnly ["Server", "nginx"]))) ∧
     ((204 : Nat) < 100 ∨ (999 : Nat) < 204 →
      (forward reqA optsDirect (OutboundEvent.response 204 "No Content" ["Server", "nginx"]
        true none)).writes.head?
        = some (WriteEvent.writeHead 502 "No Content" (validHeadersOnly ["Server", "nginx"])))) :=
  ⟨by rfl, by decide,
   forward_status_passthrough reqA optsDirect obDirect 204 "No Content" ["Server", "nginx"]
     true none (by rfl) (by decide)⟩

/-- C4 counterexample: after a 407 the rejection leaves `headersSent`
false, so a subsequent socket error still makes the error listener
write a 502 head and `Bad Gateway` body to the client — the engine does
not `never` write response headers on the 407 path. -/
theorem forward_407_writes_cex :
    (forward reqA optsProxy (OutboundEvent.response 407 "Proxy Authentication Required"
        ["Server", "nginx"] true (some "ECONNRESET"))).writes
      = [WriteEvent.errorResponse 502 "text/plain; charset=utf-8" "Bad Gateway"] ∧
    (forward reqA optsProxy (OutboundEvent.response 407 "Proxy Authentication Required"
        ["Server", "nginx"] true (some "ECONNRESET"))).writes ≠ [] :=
  ⟨by rfl, by decide⟩

/-- C4 as amended: a 407 outbound response is always rejected as an
upstream-auth failure first — the rejection is the first settlement and
precedes any write — and no head or body bytes of the upstream response
are ever relayed to the client.  Without a later socket error nothing
at all is written; but when the outbound socket errs after the 407
rejection, headers being still unsent, the connection-error listener
does write its own mapped status head and reason-phrase body. -/
theorem forward_407_amended (req : Request) (opts : HandlerOpts) (ob : OutboundRequest)
    (sm : String) (rh : List String) (pipeOk : Bool) (c : String)
    (h : buildOutbound req opts = Except.ok ob) :
    forward req opts (OutboundEvent.response 407 sm rh pipeOk none)
      = { outbound := some ob, writes := [],
          settlements := [Settlement.rejected "407 Proxy Authentication Required"] } ∧
    forward req opts (OutboundEvent.response 407 sm rh pipeOk (some c))
      = { outbound := some ob,
          writes := [WriteEvent.errorResponse
            (errorStatus opts.upstreamProxyUrlParsed.isSome c)
            "text/plain; charset=utf-8"
            (STATUS_CODES (errorStatus opts.upstreamProxyUrlParsed.isSome c))],
          settlements := [Settlement.rejected "407 Proxy Authentication Required",
            Settlement.resolved] } := by
  constructor
  · unfold forward
    rw [h]
    rfl
  · unfold forward
    rw [h]
    simp [clientErrorListener]

/-- C4 amended-claim witness: a concrete 407 with and without a
subsequent socket error. -/
theorem forward_407_amended_witness :
    buildOutbound reqA optsProxy = Except.ok obProxy ∧
    (forward reqA optsProxy (OutboundEvent.response 407 "Proxy Authentication Required"
        ["Server", "nginx"] true none)
      = { outbound := some obProxy, writes := [],
          settlements := [Settlement.rejected "407 Proxy Authentication Required"] } ∧
     forward reqA optsProxy (OutboundEvent.response 407 "Proxy Authentication Required"
        ["Server", "nginx"] true (some "ECONNRESET"))
      = { outbound := some obProxy,
          writes := [WriteEvent.errorResponse
            (errorStatus optsProxy.upstreamProxyUrlParsed.isSome "ECONNRESET")
            "text/plain; charset=utf-8"
            (STATUS_CODES (errorStatus optsProxy.upstreamProxyUrlParsed.isSome "ECONNRESET"))],
          settlements := [Settlement.rejected "407 Proxy Authentication Required",
            Settlement.resolved] }) :=
  ⟨by rfl,
   forward_407_amended reqA optsProxy obProxy "Proxy Authentication Required"
     ["Server", "nginx"] true "ECONNRESET" (by rfl)⟩

/-- C5: a pre-response connection error yields exactly one client
response whose status follows the error-code table (ENOTFOUND is 404
direct and 502 via proxy; ECONNREFUSED, ECONNRESET and EPIPE are 502;
ETIMEDOUT is 504; everything else is 502) and whose plain-text body is
the standard reason phrase of that status. -/
theorem forward_connError_mapping (req : Request) (opts : HandlerOpts) (ob : OutboundRequest)
    (code : String) (h : buildOutbound req opts = Except.ok ob) :
    ((forward req opts (OutboundEvent.connError code)).writes
        = [WriteEvent.errorResponse (errorStatus opts.upstreamProxyUrlParsed.isSome code)
            "text/plain; charset=utf-8"
            (STATUS_CODES (errorStatus opts.upstreamProxyUrlParsed.isSome code))] ∧
     (forward req opts (OutboundEvent.connError code)).settlements
        = [Settlement.resolved]) ∧
    (code = "ENOTFOUND" →
        errorStatus opts.upstreamProxyUrlParsed.isSome code
          = if opts.upstreamProxyUrlParsed.isSome then 502 else 404) ∧
    (code = "ECONNREFUSED" ∨ code = "ECONNRESET" ∨ code = "EPIPE" →
        errorStatus opts.upstreamProxyUrlParsed.isSome code = 502) ∧
    (code = "ETIMEDOUT" → errorStatus opts.upstreamProxyUrlParsed.isSome code = 504) ∧
    (code ≠ "ENOTFOUND" ∧ code ≠ "ECONNREFUSED" ∧ code ≠ "ECONNRESET" ∧ code ≠ "EPIPE" ∧
        code ≠ "ETIMEDOUT" →
        errorStatus opts.upstreamProxyUrlParsed.isSome code = 502) := by
  rw [forward_connError_eq req opts ob code h]
  refine ⟨⟨rfl, rfl⟩, ?_, ?_, ?_, ?_⟩
  · intro hc
    subst hc
    cases hps : opts.upstreamProxyUrlParsed.isSome <;> simp [errorStatus, statuses]
  · rintro (hc | hc | hc) <;> subst hc <;> simp [errorStatus, statuses]
  · intro hc
    subst hc
    simp [errorStatus, statuses]
  · rintro ⟨h1, h2, h3, h4, h5⟩
    simp [errorStatus, statuses, h1, h2, h3, h4, h5]

/-- C5 witness: ECONNREFUSED in direct mode maps to 502 with body
`Bad Gateway`. -/
theorem forward_connError_mapping_witness :
    buildOutbound reqA optsDirect = Except.ok obDirect ∧
    (((forward reqA optsDirect (OutboundEvent.connError "ECONNREFUSED")).writes
        = [WriteEvent.errorResponse
            (errorStatus optsDirect.upstreamProxyUrlParsed.isSome "ECONNREFUSED")
            "text/plain; charset=utf-8"
            (STATUS_CODES (errorStatus optsDirect.upstreamProxyUrlParsed.isSome "ECONNREFUSED"))] ∧
      (forward reqA optsDirect (OutboundEvent.connError "ECONNREFUSED")).settlements
        = [Settlement.resolved]) ∧
     ("ECONNREFUSED" = "ENOTFOUND" →
        errorStatus optsDirect.upstreamProxyUrlParsed.isSome "ECONNREFUSED"
          = if optsDirect.upstreamProxyUrlParsed.isSome then 502 else 404) ∧
     ("ECONNREFUSED" = "ECONNREFUSED" ∨ "ECONNREFUSED" = "ECONNRESET" ∨
          "ECONNREFUSED" = "EPIPE" →
        errorStatus optsDirect.upstreamProxyUrlParsed.isSome "ECONNREFUSED" = 502) ∧
     ("ECONNREFUSED" = "ETIMEDOUT" →
        errorStatus optsDirect.upstreamProxyUrlParsed.isSome "ECONNREFUSED" = 504) ∧
     ("ECONNREFUSED" ≠ "ENOTFOUND" ∧ "ECONNREFUSED" ≠ "ECONNREFUSED" ∧
          "ECONNREFUSED" ≠ "ECONNRESET" ∧ "ECONNREFUSED" ≠ "EPIPE" ∧
          "ECONNREFUSED" ≠ "ETIMEDOUT" →
        errorStatus optsDirect.upstreamProxyUrlParsed.isSome "ECONNREFUSED" = 502)) :=
  ⟨by rfl, forward_connError_mapping reqA optsDirect obDirect "ECONNREFUSED" (by rfl)⟩

/-- C6: a connection error after the response head was written changes
nothing: the relay still resolves exactly once, the client sees exactly
one response start, and the error listener invoked with headers already
sent performs no write and no settlement. -/
theorem forward_post_response_error (req : Request) (opts : HandlerOpts) (ob : OutboundRequest)
    (sc : Nat) (sm : String) (rh : List String) (pipeOk : Bool) (c : String)
    (h : buildOutbound req opts = Except.ok ob) (h407 : sc ≠ 407) :
    (forward req opts (OutboundEvent.response sc sm rh pipeOk (some c))).settlements
      = [Settlement.resolved] ∧
    ((forward req opts (OutboundEvent.response sc sm rh pipeOk (some c))).writes.filter
        WriteEvent.isResponseStart).length = 1 ∧
    clientErrorListener true opts.upstreamProxyUrlParsed.isSome c = ([], []) := by
  rw [forward_response_eq req opts ob sc sm rh pipeOk (some c) h h407]
  refine ⟨rfl, ?_, by simp [clientErrorListener]⟩
  simp [WriteEvent.isResponseStart]

/-- C6 witness: a stream error after a 200 head was written. -/
theorem forward_post_response_error_witness :
    buildOutbound reqA optsDirect = Except.ok obDirect ∧ (200 : Nat) ≠ 407 ∧
    ((forward reqA optsDirect (OutboundEvent.response 200 "OK" ["Server", "nginx"] false
        (some "ECONNRESET"))).settlements = [Settlement.resolved] ∧
     ((forward reqA optsDirect (OutboundEvent.response 200 "OK" ["Server", "nginx"] false
        (some "ECONNRESET"))).writes.filter WriteEvent.isResponseStart).length = 1 ∧
     clientErrorListener true optsDirect.upstreamProxyUrlParsed.isSome "ECONNRESET"
        = ([], [])) :=
  ⟨by rfl, by decide,
   forward_post_response_error reqA optsDirect obDirect 200 "OK" ["Server", "nginx"]
     false "ECONNRESET" (by rfl) (by decide)⟩

/-- C7: when encoding the upstream credentials fails, the relay is
rejected with that error before anything else happens: no outbound
request exists, nothing is written to the client, whatever the outbound
event would have been. -/
theorem forward_credential_encoding_failure (req : Request) (opts : HandlerOpts)
    (p : ProxyURL) (e : String) (hooked : List String) (ev : OutboundEvent)
    (hp : opts.upstreamProxyUrlParsed = some p)
    (hcred : p.username ≠ "" ∨ p.password ≠ "")
    (henc : getBasicAuthorizationHeader p = Except.error e)
    (hap : applyHook opts req.rawHeaders = Except.ok hooked) :
    forward req opts ev
      = { outbound := none, writes := [], settlements := [Settlement.rejected e] } := by
  unfold forward
  rw [buildOutbound_encError req opts hooked p e hap hp hcred henc]

/-- C7 witness: credentials with a character outside one-byte range. -/
theorem forward_credential_encoding_failure_witness :
    optsBadCreds.upstreamProxyUrlParsed = some pBadCreds ∧
    (pBadCreds.username ≠ "" ∨ pBadCreds.password ≠ "") ∧
    getBasicAuthorizationHeader pBadCreds = Except.error "Invalid credentials encoding" ∧
    applyHook optsBadCreds reqA.rawHeaders = Except.ok reqA.rawHeaders ∧
    forward reqA optsBadCreds (OutboundEvent.connError "ECONNREFUSED")
      = { outbound := none, writes := [],
          settlements := [Settlement.rejected "Invalid credentials encoding"] } :=
  ⟨by rfl, by decide, by rfl, by rfl,
   forward_credential_encoding_failure reqA optsBadCreds pBadCreds
     "Invalid credentials encoding" reqA.rawHeaders (OutboundEvent.connError "ECONNREFUSED")
     (by rfl) (by decide) (by rfl) (by rfl)⟩

/-- C8 counterexample: through an upstream proxy with credentials the
transmitted outbound header sequence is not an output of the sanitizer:
one more sanitizer pass would strip the appended proxy-authorization
pair (the sanitizer being idempotent, its outputs are its fixpoints). -/
theorem forward_sanitization_cex :
    buildOutbound reqA optsProxy = Except.ok obProxy ∧
    validHeadersOnly obProxy.headers ≠ obProxy.headers :=
  ⟨by rfl, by decide⟩

/-- C8 as amended: every transmitted header sequence is sanitized
before the engine's own append — the outbound sequence is the sanitized
hook output optionally followed by the single engine-appended
proxy-authorization pair (which is not re-sanitized), and the response
head written to the client carries exactly the sanitizer's output of
the upstream raw headers. -/
theorem forward_sanitization_amended (req : Request) (opts : HandlerOpts)
    (ob : OutboundRequest) (hooked : List String) (sc : Nat) (sm : String)
    (rh : List String) (pipeOk : Bool) (lateErr : Option String)
    (hap : applyHook opts req.rawHeaders = Except.ok hooked)
    (h : buildOutbound req opts = Except.ok ob) (h407 : sc ≠ 407) :
    (List.take (validHeadersOnly hooked).length ob.headers = validHeadersOnly hooked ∧
     (List.drop (validHeadersOnly hooked).length ob.headers = [] ∨
      List.drop (validHeadersOnly hooked).length ob.headers
        = "proxy-authorization" :: headerValuesOf "proxy-authorization" ob.headers)) ∧
    (forward req opts (OutboundEvent.response sc sm rh pipeOk lateErr)).writes.head?
      = some (WriteEvent.writeHead (if sc < 100 ∨ 999 < sc then 502 else sc) sm
          (validHeadersOnly rh)) := by
  refine ⟨?_, by rw [forward_response_eq req opts ob sc sm rh pipeOk lateErr h h407]; rfl⟩
  cases hp : opts.upstreamProxyUrlParsed with
  | none =>
      rw [buildOutbound_direct req opts hooked hap hp] at h
      simp only [Except.ok.injEq] at h
      subst h
      simp
  | some p =>
      by_cases hcred : p.username ≠ "" ∨ p.password ≠ ""
      · cases henc : getBasicAuthorizationHeader p with
        | error e => rw [buildOutbound_encError req opts hooked p e hap hp hcred henc] at h; cases h
        | ok v =>
            rw [buildOutbound_creds req opts hooked p v hap hp hcred henc] at h
            simp only [Except.ok.injEq] at h
            subst h
            have hc := countHeader_pa_append hooked v
            dsimp only
            refine ⟨List.take_left _ _, Or.inr ?_⟩
            rw [hc.2, List.drop_left]
      · rw [buildOutbound_noCreds req opts hooked p hap hp hcred] at h
        simp only [Except.ok.injEq] at h
        subst h
        simp

/-- C8 amended-claim witness at a concrete proxied request. -/
theorem forward_sanitization_amended_witness :
    applyHook optsProxy reqA.rawHeaders = Except.ok reqA.rawHeaders ∧
    buildOutbound reqA optsProxy = Except.ok obProxy ∧ (200 : Nat) ≠ 407 ∧
    ((List.take (validHeadersOnly reqA.rawHeaders).length obProxy.headers
        = validHeadersOnly reqA.rawHeaders ∧
      (List.drop (validHeadersOnly reqA.rawHeaders).length obProxy.headers = [] ∨
       List.drop (validHeadersOnly reqA.rawHeaders).length obProxy.headers
        = "proxy-authorization" :: headerValuesOf "proxy-authorization" obProxy.headers)) ∧
     (forward reqA optsProxy (OutboundEvent.response 200 "OK" ["Server", "nginx"]
        true none)).writes.head?
      = some (WriteEvent.writeHead (if (200 : Nat) < 100 ∨ 999 < (200 : Nat) then 502 else 200)
          "OK" (validHeadersOnly ["Server", "nginx"]))) :=
  ⟨by rfl, by rfl, by decide,
   forward_sanitization_amended reqA optsProxy obProxy reqA.rawHeaders 200 "OK"
     ["Server", "nginx"] true none (by rfl) (by rfl) (by decide)⟩

/-- C9 fails on the code: a throwing custom-header hook escapes the
async promise executor, so this run performs no write and makes no
settlement call — the promise returned by `forward` is left pending
forever instead of reaching a terminal outcome. -/
theorem forward_hook_throw_never_settles :
    forward reqA optsHookThrow (OutboundEvent.connError "ECONNREFUSED")
      = { outbound := none, writes := [], settlements := [] } := by rfl

/-- C10: when an out-of-range status is replaced with 502, the status
message of the written head is still the upstream's original one. -/
theorem forward_clamp_preserves_message (req : Request) (opts : HandlerOpts)
    (ob : OutboundRequest) (sc : Nat) (sm : String) (rh : List String) (pipeOk : Bool)
    (lateErr : Option String)
    (h : buildOutbound req opts = Except.ok ob) (hout : sc < 100 ∨ 999 < sc) :
    (forward req opts (OutboundEvent.response sc sm rh pipeOk lateErr)).writes.head?
      = some (WriteEvent.writeHead 502 sm (validHeadersOnly rh)) := by
  have h407 : sc ≠ 407 := by rcases hout with h1 | h1 <;> omega
  rw [forward_response_eq req opts ob sc sm rh pipeOk lateErr h h407]
  simp [hout]

/-- C10 witness: upstream status 1000 becomes 502, its status message
`Custom Message` is passed through unchanged. -/
theorem forward_clamp_preserves_message_witness :
    buildOutbound reqA optsDirect = Except.ok obDirect ∧
    ((1000 : Nat) < 100 ∨ (999 : Nat) < 1000) ∧
    (forward reqA optsDirect (OutboundEvent.response 1000 "Custom Message"
        ["Server", "nginx"] true none)).writes.head?
      = some (WriteEvent.writeHead 502 "Custom Message" (validHeadersOnly ["Server", "nginx"])) :=
  ⟨by rfl, by decide,
   forward_clamp_preserves_message reqA optsDirect obDirect 1000 "Custom Message"
     ["Server", "nginx"] true none (by rfl) (by decide)⟩

end ProxyChain
